import Mathlib

/-!
# quiz-api-service: the user service (`internal/services/userservice.go`)

A shallow embedding of `UserService` and of the two collaborators it talks to:
the `*gorm.DB` handle over the `users` table and the `*zap.Logger`.

* Stateful Go code is written as explicit state passing: every method takes the
  service value and returns the service value after the call together with the
  Go return value.
* A Go `(T, error)` return is an `Except GoError T`; a nil pointer result is the
  `Except.error` case.
* The database handle records every statement it is asked to run, and the
  logger records every entry it is handed, so that "one persistence call" and
  "an error entry was written" are properties of the resulting state.
-/

/-! ## Error values -/

/-- Error values the storage layer puts in `res.Error`. -/
inductive GormError where
  /-- `gorm.ErrRecordNotFound`, what `First` reports when no row matches. -/
  | ErrRecordNotFound
  /-- The driver's rejection of a row that repeats a value of a unique index. -/
  | duplicateEntry (key : String)
  /-- Every other driver failure (connectivity, timeout), with its text. -/
  | driver (detail : String)
  deriving DecidableEq, Repr

/-- Error values a method of the service hands back to its caller. -/
inductive GoError where
  /-- The statement `return res.Error`: the storage layer's value, as it is. -/
  | storage (e : GormError)
  /-- The value built by `fmt.Errorf(msg)`. -/
  | errorf (msg : String)
  deriving DecidableEq, Repr

/-- Whether an error value is one that came out of the storage layer. -/
def GoError.isStorageValue : GoError → Bool
  | .storage _ => true
  | .errorf _ => false

/-! ## Entities -/

/-- Modelled from the spec: the declaration of `api.User` is not among the
sources; its fields are the attributes of the User entity (section 3) and the
columns of the `users` table (section 6). Every field has Go's zero value as
its default. -/
structure api.User where
  ID : Nat := 0
  Name : String := ""
  Username : String := ""
  Age : Int := 0
  Password : String := ""
  CreatedAt : Int := 0
  UpdatedAt : Int := 0
  LastLoginTimeStamp : Int := 0
  deriving DecidableEq, Repr

/-- Modelled from the spec: the declaration of `api.LoginRequest` is not among
the sources; it is the transient value object of section 3, a username and the
submitted password. -/
structure api.LoginRequest where
  Username : String := ""
  Password : String := ""
  deriving DecidableEq, Repr

/-- Modelled from the spec: the declaration of `pkg.User` (the struct handed to
`Create`) is not among the sources; it carries the columns of the `users`
table, zero valued unless set. -/
structure pkg.User where
  ID : Nat := 0
  Name : String := ""
  Username : String := ""
  Age : Int := 0
  Password : String := ""
  CreatedAt : Int := 0
  UpdatedAt : Int := 0
  LastLoginTimeStamp : Int := 0
  deriving DecidableEq, Repr

/-! ## The persistence collaborator -/

/-- One row of the `users` table, with the column names of section 6. -/
structure gorm.Row where
  id : Nat
  name : String
  username : String
  age : Int
  password : String
  created_at : Int
  updated_at : Int
  last_login_time_stamp : Int
  deriving DecidableEq, Repr

/-- The predicate of a `Where` clause, as the service uses it. -/
inductive gorm.Cond where
  /-- The clause `Where("username = ?", username)`. -/
  | usernameEq (username : String)
  /-- The clause `Where("id = ?", uID)`. -/
  | idEq (uID : Nat)
  deriving DecidableEq, Repr

/-- The values an insert binds, one slot per column of the `users` table;
`none` says the column is not in the statement. -/
structure gorm.Assignments where
  id : Option Nat := none
  name : Option String := none
  username : Option String := none
  age : Option Int := none
  password : Option String := none
  created_at : Option Int := none
  updated_at : Option Int := none
  last_login_time_stamp : Option Int := none
  deriving DecidableEq, Repr

/-- A statement sent to the database. -/
inductive gorm.Statement where
  /-- An `INSERT INTO users` writing exactly the bound columns. -/
  | insert (assignments : gorm.Assignments)
  /-- A `SELECT columns FROM users`, from `Find`. -/
  | selectAll (columns : List String)
  /-- A `SELECT columns FROM users WHERE cond ORDER BY id LIMIT 1`, from `First`. -/
  | selectFirst (columns : List String) (cond : gorm.Cond)
  deriving DecidableEq, Repr

/-- What a finished gorm chain exposes: `res.Error` and `res.RowsAffected`. -/
structure gorm.Result where
  Error : Option GormError
  RowsAffected : Int
  deriving DecidableEq, Repr

/-- Modelled from the spec: gorm and the schema of the `users` table (the
migrations) are not among the sources. The handle is the table of section 6
(`rows`, in insertion order, `username` indexed unique), the clock gorm and
the store stamp new rows with (`now`), the state of the connection (`fault`: when set,
every statement fails with that error and touches nothing), and the log of the
statements sent so far (`statements`, oldest first). -/
structure gorm.DB where
  rows : List gorm.Row := []
  now : Int := 0
  fault : Option GormError := none
  statements : List gorm.Statement := []
  deriving DecidableEq, Repr

/-- What gorm does to the struct handed to `Create` before it builds the
statement: the auto time fields `CreatedAt` and `UpdatedAt` that are zero are
set to gorm's clock, on the struct itself. -/
def gorm.stamp (u : pkg.User) (now : Int) : pkg.User :=
  { u with
    CreatedAt := if u.CreatedAt = 0 then now else u.CreatedAt
    UpdatedAt := if u.UpdatedAt = 0 then now else u.UpdatedAt }

/-- The columns an insert restricted by `Select(columns...)` binds, from the
stamped struct: a listed column is bound to the struct's field (`id` only when
it is not zero, the key being generated otherwise), and the auto time columns
`created_at` and `updated_at` are bound whether listed or not. -/
def gorm.assignmentsOf (columns : List String) (u : pkg.User) : gorm.Assignments :=
  { id := if columns.contains "id" && decide (u.ID ≠ 0) then some u.ID else none
    name := if columns.contains "name" then some u.Name else none
    username := if columns.contains "username" then some u.Username else none
    age := if columns.contains "age" then some u.Age else none
    password := if columns.contains "password" then some u.Password else none
    created_at := some u.CreatedAt
    updated_at := some u.UpdatedAt
    last_login_time_stamp :=
      if columns.contains "last_login_time_stamp" then some u.LastLoginTimeStamp else none }

/-- The names of the columns an insert binds, in the order of the table. -/
def gorm.Assignments.columns (a : gorm.Assignments) : List String :=
  (if a.id.isSome then ["id"] else [])
  ++ (if a.name.isSome then ["name"] else [])
  ++ (if a.username.isSome then ["username"] else [])
  ++ (if a.age.isSome then ["age"] else [])
  ++ (if a.password.isSome then ["password"] else [])
  ++ (if a.created_at.isSome then ["created_at"] else [])
  ++ (if a.updated_at.isSome then ["updated_at"] else [])
  ++ (if a.last_login_time_stamp.isSome then ["last_login_time_stamp"] else [])

/-- The largest identifier in the table (0 for the empty table). -/
def gorm.maxID : List gorm.Row → Nat
  | [] => 0
  | r :: rs => max r.id (gorm.maxID rs)

/-- The row an insert stores: a bound column takes the bound value, an unbound
identifier is the next one of the table, unbound stamps are the store's clock,
and any other unbound column is zero. -/
def gorm.rowOf (assignments : gorm.Assignments) (freshID : Nat) (now : Int) : gorm.Row :=
  { id := assignments.id.getD freshID
    name := assignments.name.getD ""
    username := assignments.username.getD ""
    age := assignments.age.getD 0
    password := assignments.password.getD ""
    created_at := assignments.created_at.getD now
    updated_at := assignments.updated_at.getD now
    last_login_time_stamp := assignments.last_login_time_stamp.getD 0 }

/-- Whether a row satisfies a `Where` clause. -/
def gorm.Cond.holds : gorm.Cond → gorm.Row → Bool
  | .usernameEq u, r => decide (r.username = u)
  | .idEq n, r => decide (r.id = n)

/-- The row with the smallest identifier (the earliest one among equals). -/
def gorm.minByID : List gorm.Row → Option gorm.Row
  | [] => none
  | r :: rs =>
    match gorm.minByID rs with
    | none => some r
    | some m => if r.id ≤ m.id then some r else some m

/-- Filling a zero valued `api.User` from a row, selected columns only. -/
def gorm.scan (columns : List String) (r : gorm.Row) : api.User :=
  { ID := if columns.contains "id" then r.id else 0
    Name := if columns.contains "name" then r.name else ""
    Username := if columns.contains "username" then r.username else ""
    Age := if columns.contains "age" then r.age else 0
    Password := if columns.contains "password" then r.password else ""
    CreatedAt := if columns.contains "created_at" then r.created_at else 0
    UpdatedAt := if columns.contains "updated_at" then r.updated_at else 0
    LastLoginTimeStamp :=
      if columns.contains "last_login_time_stamp" then r.last_login_time_stamp else 0 }

/-- The chain `db.Select(columns...).Create(user)`: one insert statement,
built from the struct after gorm stamped it. It fails with the connection's
fault, or with a duplicate entry when a row already has the new row's username;
otherwise the row is appended. The second component is the struct `user`
points to after the call: stamped, and carrying the new identifier on success. -/
def gorm.DB.Create (db : gorm.DB) (columns : List String) (user : pkg.User) :
    gorm.DB × pkg.User × gorm.Result :=
  let stamped := gorm.stamp user db.now
  let assignments := gorm.assignmentsOf columns stamped
  let sent := { db with statements := db.statements ++ [gorm.Statement.insert assignments] }
  match db.fault with
  | some e => (sent, stamped, { Error := some e, RowsAffected := 0 })
  | none =>
    let row := gorm.rowOf assignments (gorm.maxID db.rows + 1) db.now
    if db.rows.any (fun r => decide (r.username = row.username)) then
      (sent, stamped,
        { Error := some (GormError.duplicateEntry row.username), RowsAffected := 0 })
    else
      ({ sent with rows := db.rows ++ [row] }, { stamped with ID := row.id },
        { Error := none, RowsAffected := 1 })

/-- The chain `db.Select(columns...).Find(&users)`: one select of every row. -/
def gorm.DB.Find (db : gorm.DB) (columns : List String) :
    gorm.DB × List api.User × gorm.Result :=
  let sent := { db with statements := db.statements ++ [gorm.Statement.selectAll columns] }
  match db.fault with
  | some e => (sent, [], { Error := some e, RowsAffected := 0 })
  | none =>
    (sent, db.rows.map (gorm.scan columns), { Error := none, RowsAffected := db.rows.length })

/-- The row a `WHERE cond ORDER BY id LIMIT 1` picks from the table. -/
def gorm.DB.firstMatch (db : gorm.DB) (cond : gorm.Cond) : Option gorm.Row :=
  gorm.minByID (db.rows.filter cond.holds)

/-- The chain `db.Select(columns...).Where(cond).First(&user)`: one select of
the matching row with the smallest identifier; `ErrRecordNotFound` and an
untouched destination when no row matches. -/
def gorm.DB.First (db : gorm.DB) (columns : List String) (cond : gorm.Cond) :
    gorm.DB × api.User × gorm.Result :=
  let sent := { db with statements := db.statements ++ [gorm.Statement.selectFirst columns cond] }
  match db.fault with
  | some e => (sent, {}, { Error := some e, RowsAffected := 0 })
  | none =>
    match db.firstMatch cond with
    | none => (sent, {}, { Error := some GormError.ErrRecordNotFound, RowsAffected := 0 })
    | some r => (sent, gorm.scan columns r, { Error := none, RowsAffected := 1 })

/-! ## The observability collaborator -/

/-- Severity of a log entry. -/
inductive zap.Level where
  | DebugLevel
  | ErrorLevel
  deriving DecidableEq, Repr

/-- A structured field attached to a log entry. -/
inductive zap.Field where
  /-- The field `zap.Any(key, user)` for the struct handed to `Create`. -/
  | AnyPkgUser (key : String) (value : pkg.User)
  /-- The field `zap.Any(key, user)` for a scanned user. -/
  | AnyUser (key : String) (value : api.User)
  /-- The field `zap.Error(err)`. -/
  | Error (err : GormError)
  /-- The field `zap.Int64(key, n)`. -/
  | Int64 (key : String) (value : Int)
  /-- The field `zap.String(key, s)`. -/
  | String (key : String) (value : String)
  deriving DecidableEq, Repr

/-- One entry handed to the logger. -/
structure zap.Entry where
  Level : zap.Level
  Message : String
  Fields : List zap.Field
  deriving DecidableEq, Repr

/-- The logger, as the entries handed to it so far (oldest first). -/
structure zap.Logger where
  entries : List zap.Entry := []
  deriving DecidableEq, Repr

/-- The call `logger.Error(msg, fields...)`. -/
def zap.Logger.Error (l : zap.Logger) (msg : String) (fields : List zap.Field) : zap.Logger :=
  { entries := l.entries ++ [{ Level := zap.Level.ErrorLevel, Message := msg, Fields := fields }] }

/-- The call `logger.Debug(msg, fields...)`. -/
def zap.Logger.Debug (l : zap.Logger) (msg : String) (fields : List zap.Field) : zap.Logger :=
  { entries := l.entries ++ [{ Level := zap.Level.DebugLevel, Message := msg, Fields := fields }] }

/-- The entries of error severity. -/
def zap.Logger.errorEntries (l : zap.Logger) : List zap.Entry :=
  l.entries.filter (fun e => decide (e.Level = zap.Level.ErrorLevel))

/-! ## The service -/

/-- The settings struct of the service. -/
structure UserServiceSettings where
  Port : Int := 0
  Hostname : String := ""
  deriving DecidableEq, Repr

/-- The service: its database handle, its logger and its settings. -/
structure UserService where
  DBConn : gorm.DB := {}
  logger : zap.Logger := {}
  settings : UserServiceSettings := {}
  deriving DecidableEq, Repr

/-- The constructor `NewUserService`. -/
def NewUserService (dbConn : gorm.DB) (logger : zap.Logger) (settings : UserServiceSettings) :
    UserService :=
  { DBConn := dbConn, logger := logger, settings := settings }

/-- The method `InsertUser`: copy four fields of the request into a fresh
`pkg.User`, insert it through `Select("name", "age", "username", "password")`,
log, and return `res.Error` as it is. `created` is the struct behind the pointer
`user` once `Create` has written through it, which is what the error entry
shows. -/
def UserService.InsertUser (service : UserService) (req : api.User) :
    UserService × Except GoError Unit :=
  let user : pkg.User :=
    { Name := req.Name, Username := req.Username, Age := req.Age, Password := req.Password }
  let (conn, created, res) :=
    service.DBConn.Create ["name", "age", "username", "password"] user
  match res.Error with
  | some e =>
    ({ service with
        DBConn := conn
        logger := service.logger.Error "something went wrong inserting user"
          [zap.Field.AnyPkgUser "user" created, zap.Field.Error e] },
      Except.error (GoError.storage e))
  | none =>
    ({ service with
        DBConn := conn
        logger := service.logger.Debug "rows inserted"
          [zap.Field.Int64 "rowsAffected" res.RowsAffected] },
      Except.ok ())

/-- The method `GetUsers`: select six columns of every row. -/
def UserService.GetUsers (service : UserService) :
    UserService × Except GoError (List api.User) :=
  let (conn, users, res) :=
    service.DBConn.Find ["name", "age", "username", "created_at", "updated_at", "id"]
  match res.Error with
  | some e =>
    ({ service with
        DBConn := conn
        logger := service.logger.Error "something went wrong getting all players"
          [zap.Field.Error e] },
      Except.error (GoError.storage e))
  | none =>
    ({ service with
        DBConn := conn
        logger := service.logger.Debug "users grabbed" [zap.Field.Int64 "number" res.RowsAffected] },
      Except.ok users)

/-- The method `GetUserByUsername`: select five columns of the first row whose
username equals the argument. -/
def UserService.GetUserByUsername (service : UserService) (username : String) :
    UserService × Except GoError api.User :=
  let (conn, user, res) :=
    service.DBConn.First ["name", "age", "username", "password", "last_login_time_stamp"]
      (gorm.Cond.usernameEq username)
  match res.Error with
  | some e =>
    ({ service with
        DBConn := conn
        logger := service.logger.Error "something went wrong getting player by username"
          [zap.Field.Error e, zap.Field.String "username" username] },
      Except.error (GoError.storage e))
  | none =>
    ({ service with
        DBConn := conn
        logger := service.logger.Debug "user grabbed" [zap.Field.AnyUser "user" user] },
      Except.ok user)

/-- The method `GetUserByID`: the same select, keyed by identifier. -/
def UserService.GetUserByID (service : UserService) (uID : Nat) :
    UserService × Except GoError api.User :=
  let (conn, user, res) :=
    service.DBConn.First ["name", "age", "username", "password", "last_login_time_stamp"]
      (gorm.Cond.idEq uID)
  match res.Error with
  | some e =>
    ({ service with
        DBConn := conn
        logger := service.logger.Error "something went wrong getting player by ID"
          [zap.Field.Error e] },
      Except.error (GoError.storage e))
  | none =>
    ({ service with
        DBConn := conn
        logger := service.logger.Debug "user grabbed" [zap.Field.AnyUser "user" user] },
      Except.ok user)

/-- The method `Login`: `GetUserByUsername`, then the comparison of the stored
and the submitted password. -/
def UserService.Login (service : UserService) (request : api.LoginRequest) :
    UserService × Except GoError api.User :=
  match service.GetUserByUsername request.Username with
  | (service1, Except.error err) => (service1, Except.error err)
  | (service1, Except.ok user) =>
    if user.Password ≠ request.Password then
      (service1, Except.error (GoError.errorf "invalid passord for user"))
    else
      (service1, Except.ok user)

/-! ## Sample states -/

/-- The row stored for Ada in the scenario of the specification. -/
def adaRow : gorm.Row :=
  { id := 1, name := "Ada", username := "ada", age := 30, password := "secret",
    created_at := 100, updated_at := 100, last_login_time_stamp := 0 }

/-- A service over a table holding Ada only. -/
def adaService : UserService :=
  { DBConn := { rows := [adaRow], now := 200 } }

/-- A service over the empty table. -/
def emptyService : UserService :=
  { DBConn := { now := 200 } }

/-- The failure of a connection that cannot reach the database. -/
def connRefused : GormError :=
  GormError.driver "dial tcp 127.0.0.1:3306: connect: connection refused"

/-- A service whose connection is down, over a table holding Ada. -/
def downService : UserService :=
  { DBConn := { rows := [adaRow], now := 200, fault := some connRefused } }

/-- The create request of the scenario. -/
def adaReq : api.User :=
  { Name := "Ada", Username := "ada", Age := 30, Password := "secret" }

/-- The columns `GetUserByUsername` and `GetUserByID` select. -/
def lookupColumns : List String :=
  ["name", "age", "username", "password", "last_login_time_stamp"]

/-! ## Statements, rows and requests the theorems speak about -/

/-- The insert statement `InsertUser` sends for a request through a given
handle: the four copied fields, and the two stamps from the handle's clock. -/
def insertStatementOf (db : gorm.DB) (req : api.User) : gorm.Statement :=
  gorm.Statement.insert
    { name := some req.Name, username := some req.Username, age := some req.Age,
      password := some req.Password, created_at := some db.now, updated_at := some db.now }

/-- The row the store keeps for a request inserted into a given handle. -/
def storedRowOf (db : gorm.DB) (req : api.User) : gorm.Row :=
  { id := gorm.maxID db.rows + 1, name := req.Name, username := req.Username, age := req.Age,
    password := req.Password, created_at := db.now, updated_at := db.now,
    last_login_time_stamp := 0 }

/-- A create request with an empty username and an empty password. -/
def emptyFieldsReq : api.User :=
  { Name := "Ada", Age := 30 }

/-- A row with its password column blanked. -/
def gorm.Row.withoutPassword (r : gorm.Row) : gorm.Row :=
  { r with password := "" }

/-- The columns `GetUsers` selects. -/
def listColumns : List String :=
  ["name", "age", "username", "created_at", "updated_at", "id"]

/-! ## Facts about the store -/

theorem gorm.minByID_nil_of_filter_none (rows : List gorm.Row) (cond : gorm.Cond)
    (h : ∀ r ∈ rows, cond.holds r = false) :
    gorm.minByID (rows.filter cond.holds) = none := by
  have : rows.filter cond.holds = [] := by
    rw [List.filter_eq_nil_iff]
    intro r hr
    simp [h r hr]
  rw [this]
  rfl

theorem gorm.filter_append_fresh (rows : List gorm.Row) (cond : gorm.Cond) (row : gorm.Row)
    (h : ∀ r ∈ rows, cond.holds r = false) (hrow : cond.holds row = true) :
    (rows ++ [row]).filter cond.holds = [row] := by
  have : rows.filter cond.holds = [] := by
    rw [List.filter_eq_nil_iff]
    intro r hr
    simp [h r hr]
  simp [List.filter_append, this, hrow]

theorem gorm.any_username_false (rows : List gorm.Row) (u : String)
    (h : ∀ r ∈ rows, r.username ≠ u) :
    rows.any (fun r => decide (r.username = u)) = false := by
  rw [List.any_eq_false]
  intro r hr
  simpa using h r hr

theorem gorm.any_username_true (rows : List gorm.Row) (u : String)
    (h : ∃ r ∈ rows, r.username = u) :
    rows.any (fun r => decide (r.username = u)) = true := by
  rw [List.any_eq_true]
  obtain ⟨r, hr, hu⟩ := h
  exact ⟨r, hr, by simpa using hu⟩

/-- The columns `InsertUser` binds for a request: the four copied fields and
the two stamps, set by gorm because the fresh struct has none. -/
theorem gorm.assignmentsOf_insert (req : api.User) (now : Int) :
    gorm.assignmentsOf ["name", "age", "username", "password"]
      (gorm.stamp { Name := req.Name, Username := req.Username, Age := req.Age,
                    Password := req.Password } now)
    = { name := some req.Name, username := some req.Username, age := some req.Age,
        password := some req.Password, created_at := some now, updated_at := some now } := by
  simp [gorm.assignmentsOf, gorm.stamp]

/-- The row `InsertUser` stores for a request. -/
theorem gorm.rowOf_insert (req : api.User) (freshID : Nat) (now : Int) :
    gorm.rowOf (gorm.assignmentsOf ["name", "age", "username", "password"]
      (gorm.stamp { Name := req.Name, Username := req.Username, Age := req.Age,
                    Password := req.Password } now))
      freshID now
    = { id := freshID, name := req.Name, username := req.Username, age := req.Age,
        password := req.Password, created_at := now, updated_at := now,
        last_login_time_stamp := 0 } := by
  rw [gorm.assignmentsOf_insert]
  rfl

/-- What the lookup of a healthy connection returns for a matching row. -/
theorem UserService.GetUserByUsername_found (service : UserService) (username : String)
    (r : gorm.Row) (hfault : service.DBConn.fault = none)
    (hrow : service.DBConn.firstMatch (gorm.Cond.usernameEq username) = some r) :
    (service.GetUserByUsername username).2 = Except.ok (gorm.scan lookupColumns r) := by
  simp [UserService.GetUserByUsername, gorm.DB.First, hfault, hrow, lookupColumns]

/-- What the lookup of a healthy connection returns when no row matches. -/
theorem UserService.GetUserByUsername_missing (service : UserService) (username : String)
    (hfault : service.DBConn.fault = none)
    (hnone : ∀ r ∈ service.DBConn.rows, r.username ≠ username) :
    (service.GetUserByUsername username).2
      = Except.error (GoError.storage GormError.ErrRecordNotFound) := by
  have h : service.DBConn.firstMatch (gorm.Cond.usernameEq username) = none := by
    apply gorm.minByID_nil_of_filter_none
    intro r hr
    simpa [gorm.Cond.holds] using hnone r hr
  simp [UserService.GetUserByUsername, gorm.DB.First, hfault, h]

/-! ## Login -/

/-- C1: for every store state and login request, if the lookup by username (on
a healthy connection) finds a row whose stored password equals the submitted
password, `Login` succeeds without error and returns the user scanned from that
row, which is exactly what `GetUserByUsername` returns for that username (value
and resulting state). -/
theorem Login_returns_user_on_matching_password (service : UserService)
    (request : api.LoginRequest) (r : gorm.Row)
    (hfault : service.DBConn.fault = none)
    (hrow : service.DBConn.firstMatch (gorm.Cond.usernameEq request.Username) = some r)
    (hpw : r.password = request.Password) :
    (service.Login request).2 = Except.ok (gorm.scan lookupColumns r)
    ∧ service.Login request = service.GetUserByUsername request.Username
    ∧ (gorm.scan lookupColumns r).Username = r.username
    ∧ (gorm.scan lookupColumns r).Password = r.password := by
  have hget := UserService.GetUserByUsername_found service request.Username r hfault hrow
  have hpw2 : (gorm.scan lookupColumns r).Password = request.Password := by
    simpa [gorm.scan, lookupColumns] using hpw
  have hlogin : service.Login request = service.GetUserByUsername request.Username := by
    unfold UserService.Login
    rcases hg : service.GetUserByUsername request.Username with ⟨s1, res⟩
    rw [hg] at hget
    simp only at hget
    subst hget
    simp [hpw2]
  refine ⟨?_, hlogin, ?_, ?_⟩
  · rw [hlogin, hget]
  · simp [gorm.scan, lookupColumns]
  · simp [gorm.scan, lookupColumns]

theorem Login_returns_user_on_matching_password_witness :
    (adaService.Login { Username := "ada", Password := "secret" }).2
        = Except.ok (gorm.scan lookupColumns adaRow)
    ∧ adaService.Login { Username := "ada", Password := "secret" }
        = adaService.GetUserByUsername "ada"
    ∧ (gorm.scan lookupColumns adaRow).Username = "ada"
    ∧ (gorm.scan lookupColumns adaRow).Password = "secret" :=
  Login_returns_user_on_matching_password adaService { Username := "ada", Password := "secret" }
    adaRow rfl rfl rfl

/-- C2: for every store state and login request whose username matches a
stored row (on a healthy connection) but whose submitted password differs from
the stored one, `Login` returns no user and fails with the credential mismatch
error, a value the service builds itself and that is no storage error: it
differs from the not-found error and from every collaborator failure. -/
theorem Login_rejects_wrong_password (service : UserService)
    (request : api.LoginRequest) (r : gorm.Row)
    (hfault : service.DBConn.fault = none)
    (hrow : service.DBConn.firstMatch (gorm.Cond.usernameEq request.Username) = some r)
    (hpw : r.password ≠ request.Password) :
    (service.Login request).2 = Except.error (GoError.errorf "invalid passord for user")
    ∧ (∀ user, (service.Login request).2 ≠ Except.ok user)
    ∧ (service.Login request).2 ≠ Except.error (GoError.storage GormError.ErrRecordNotFound)
    ∧ (∀ e, (service.Login request).2 ≠ Except.error (GoError.storage e))
    ∧ GoError.isStorageValue (GoError.errorf "invalid passord for user") = false := by
  have hget := UserService.GetUserByUsername_found service request.Username r hfault hrow
  have hpw2 : (gorm.scan lookupColumns r).Password ≠ request.Password := by
    simpa [gorm.scan, lookupColumns] using hpw
  have hlogin : (service.Login request).2
      = Except.error (GoError.errorf "invalid passord for user") := by
    unfold UserService.Login
    rcases hg : service.GetUserByUsername request.Username with ⟨s1, res⟩
    rw [hg] at hget
    simp only at hget
    subst hget
    simp [hpw2]
  refine ⟨hlogin, ?_, ?_, ?_, rfl⟩
  · intro user h
    rw [hlogin] at h
    cases h
  · intro h
    rw [hlogin] at h
    cases h
  · intro e h
    rw [hlogin] at h
    cases h

theorem Login_rejects_wrong_password_witness :
    (adaService.Login { Username := "ada", Password := "wrong" }).2
        = Except.error (GoError.errorf "invalid passord for user")
    ∧ (∀ user, (adaService.Login { Username := "ada", Password := "wrong" }).2 ≠ Except.ok user)
    ∧ (adaService.Login { Username := "ada", Password := "wrong" }).2
        ≠ Except.error (GoError.storage GormError.ErrRecordNotFound)
    ∧ (∀ e, (adaService.Login { Username := "ada", Password := "wrong" }).2
        ≠ Except.error (GoError.storage e))
    ∧ GoError.isStorageValue (GoError.errorf "invalid passord for user") = false :=
  Login_rejects_wrong_password adaService { Username := "ada", Password := "wrong" }
    adaRow rfl rfl (by decide)

/-- C3: for every store state, every username that no stored row has (on a
healthy connection) and every submitted password, `Login` returns no user and
fails with the not-found error: its outcome is the outcome of
`GetUserByUsername` for that username, unchanged, and it is the same for every
password, the comparison never being reached. -/
theorem Login_unknown_username_not_found (service : UserService)
    (request : api.LoginRequest)
    (hfault : service.DBConn.fault = none)
    (hnone : ∀ r ∈ service.DBConn.rows, r.username ≠ request.Username) :
    (service.Login request).2 = Except.error (GoError.storage GormError.ErrRecordNotFound)
    ∧ (∀ user, (service.Login request).2 ≠ Except.ok user)
    ∧ service.Login request = service.GetUserByUsername request.Username
    ∧ (∀ password : String,
        service.Login { Username := request.Username, Password := password }
          = service.Login request) := by
  have hget := UserService.GetUserByUsername_missing service request.Username hfault hnone
  have key : ∀ password : String,
      service.Login { Username := request.Username, Password := password }
        = service.GetUserByUsername request.Username := by
    intro password
    unfold UserService.Login
    simp only
    rcases hg : service.GetUserByUsername request.Username with ⟨s1, res⟩
    rw [hg] at hget
    simp only at hget
    subst hget
    rfl
  have hlogin : service.Login request = service.GetUserByUsername request.Username :=
    key request.Password
  refine ⟨by rw [hlogin, hget], ?_, hlogin, ?_⟩
  · intro user h
    rw [hlogin, hget] at h
    cases h
  · intro password
    rw [key password, hlogin]

theorem Login_unknown_username_not_found_witness :
    (adaService.Login { Username := "bob", Password := "secret" }).2
        = Except.error (GoError.storage GormError.ErrRecordNotFound)
    ∧ (∀ user, (adaService.Login { Username := "bob", Password := "secret" }).2 ≠ Except.ok user)
    ∧ adaService.Login { Username := "bob", Password := "secret" }
        = adaService.GetUserByUsername "bob"
    ∧ (∀ password : String,
        adaService.Login { Username := "bob", Password := password }
          = adaService.Login { Username := "bob", Password := "secret" }) :=
  Login_unknown_username_not_found adaService { Username := "bob", Password := "secret" }
    rfl (by decide)

/-! ## InsertUser -/

/-- Every `Create` appends exactly one insert statement to the log. -/
theorem gorm.DB.Create_statements (db : gorm.DB) (columns : List String) (user : pkg.User) :
    (db.Create columns user).1.statements
      = db.statements ++
        [gorm.Statement.insert (gorm.assignmentsOf columns (gorm.stamp user db.now))] := by
  unfold gorm.DB.Create
  cases db.fault with
  | some e => rfl
  | none =>
    simp only
    split <;> rfl

/-- The handle `InsertUser` leaves behind is the one `Create` returned. -/
theorem UserService.InsertUser_conn (service : UserService) (req : api.User) :
    (service.InsertUser req).1.DBConn
      = (service.DBConn.Create ["name", "age", "username", "password"]
          { Name := req.Name, Username := req.Username, Age := req.Age,
            Password := req.Password }).1 := by
  unfold UserService.InsertUser
  simp only
  split <;> rfl

/-- Whatever the store answers, `InsertUser` sends one insert statement, the
one carrying the four copied fields and the two stamps of the clock. -/
theorem UserService.InsertUser_statements (service : UserService) (req : api.User) :
    (service.InsertUser req).1.DBConn.statements
      = service.DBConn.statements ++ [insertStatementOf service.DBConn req] := by
  rw [UserService.InsertUser_conn, gorm.DB.Create_statements, gorm.assignmentsOf_insert]
  rfl

/-- On a healthy connection a request with an unused username is stored. -/
theorem UserService.InsertUser_fresh (service : UserService) (req : api.User)
    (hfault : service.DBConn.fault = none)
    (hfresh : ∀ r ∈ service.DBConn.rows, r.username ≠ req.Username) :
    (service.InsertUser req).2 = Except.ok ()
    ∧ (service.InsertUser req).1.DBConn.rows
        = service.DBConn.rows ++ [storedRowOf service.DBConn req]
    ∧ (service.InsertUser req).1.DBConn.fault = none := by
  have hany := gorm.any_username_false service.DBConn.rows req.Username hfresh
  unfold UserService.InsertUser gorm.DB.Create
  simp only [hfault, gorm.rowOf_insert, hany, storedRowOf]
  simp

/-- On a healthy connection a request with a stored username is rejected by
the unique index and the table is left as it was. -/
theorem UserService.InsertUser_duplicate (service : UserService) (req : api.User)
    (hfault : service.DBConn.fault = none)
    (hdup : ∃ r ∈ service.DBConn.rows, r.username = req.Username) :
    (service.InsertUser req).2
        = Except.error (GoError.storage (GormError.duplicateEntry req.Username))
    ∧ (service.InsertUser req).1.DBConn.rows = service.DBConn.rows := by
  have hany := gorm.any_username_true service.DBConn.rows req.Username hdup
  unfold UserService.InsertUser gorm.DB.Create
  simp only [hfault, gorm.rowOf_insert, hany]
  simp

/-- C4, as stated, fails: a request whose username and password are both empty
is not rejected. On the empty table `InsertUser` returns nil, its one statement
is an insert, and the table holds the new row. -/
theorem InsertUser_empty_fields_inserted :
    emptyFieldsReq.Username = "" ∧ emptyFieldsReq.Password = ""
    ∧ (emptyService.InsertUser emptyFieldsReq).2 = Except.ok ()
    ∧ (emptyService.InsertUser emptyFieldsReq).1.DBConn.statements
        = [gorm.Statement.insert
            { name := some "Ada", username := some "", age := some 30, password := some "",
              created_at := some 200, updated_at := some 200 }]
    ∧ (emptyService.InsertUser emptyFieldsReq).1.DBConn.rows
        = [{ id := 1, name := "Ada", username := "", age := 30, password := "",
             created_at := 200, updated_at := 200, last_login_time_stamp := 0 }] := by
  refine ⟨rfl, rfl, rfl, rfl, rfl⟩

/-- C4, amended: `InsertUser` checks nothing itself. For every create request,
also one whose username or password is empty, on a healthy connection whose
table has no row with the request's username, it sends exactly one insert
carrying the request's name, age, username and password (next to the two
stamps of the clock), returns nil, and the table gains the row with those four
values. -/
theorem InsertUser_does_not_validate (service : UserService) (req : api.User)
    (hfault : service.DBConn.fault = none)
    (hfresh : ∀ r ∈ service.DBConn.rows, r.username ≠ req.Username) :
    (service.InsertUser req).1.DBConn.statements
        = service.DBConn.statements ++ [insertStatementOf service.DBConn req]
    ∧ (service.InsertUser req).2 = Except.ok ()
    ∧ (service.InsertUser req).1.DBConn.rows
        = service.DBConn.rows ++ [storedRowOf service.DBConn req] := by
  obtain ⟨hok, hrows, _⟩ := UserService.InsertUser_fresh service req hfault hfresh
  exact ⟨UserService.InsertUser_statements service req, hok, hrows⟩

theorem InsertUser_does_not_validate_witness :
    (adaService.InsertUser emptyFieldsReq).1.DBConn.statements
        = adaService.DBConn.statements ++ [insertStatementOf adaService.DBConn emptyFieldsReq]
    ∧ (adaService.InsertUser emptyFieldsReq).2 = Except.ok ()
    ∧ (adaService.InsertUser emptyFieldsReq).1.DBConn.rows
        = adaService.DBConn.rows ++ [storedRowOf adaService.DBConn emptyFieldsReq] :=
  InsertUser_does_not_validate adaService emptyFieldsReq rfl (by decide)

/-- C5: for every create request whose username some stored row already has (on
a healthy connection), `InsertUser` fails with the duplicate entry error of the
unique index and the table is unchanged: the same rows, hence every prior
record as it was and the same row count. -/
theorem InsertUser_duplicate_username_conflict (service : UserService) (req : api.User)
    (hfault : service.DBConn.fault = none)
    (hdup : ∃ r ∈ service.DBConn.rows, r.username = req.Username) :
    (service.InsertUser req).2
        = Except.error (GoError.storage (GormError.duplicateEntry req.Username))
    ∧ (service.InsertUser req).1.DBConn.rows = service.DBConn.rows
    ∧ (service.InsertUser req).1.DBConn.rows.length = service.DBConn.rows.length := by
  obtain ⟨herr, hrows⟩ := UserService.InsertUser_duplicate service req hfault hdup
  exact ⟨herr, hrows, by rw [hrows]⟩

theorem InsertUser_duplicate_username_conflict_witness :
    (adaService.InsertUser adaReq).2
        = Except.error (GoError.storage (GormError.duplicateEntry "ada"))
    ∧ (adaService.InsertUser adaReq).1.DBConn.rows = [adaRow]
    ∧ (adaService.InsertUser adaReq).1.DBConn.rows.length = 1 :=
  InsertUser_duplicate_username_conflict adaService adaReq rfl ⟨adaRow, by decide, rfl⟩

/-- C6: for every store state and every create request whose username no stored
row has (on a healthy connection), `InsertUser` succeeds, and
`GetUserByUsername` of that username on the resulting service succeeds and
returns a record with the request's username, name and age. -/
theorem InsertUser_then_GetUserByUsername (service : UserService) (req : api.User)
    (hfault : service.DBConn.fault = none)
    (hfresh : ∀ r ∈ service.DBConn.rows, r.username ≠ req.Username) :
    (service.InsertUser req).2 = Except.ok ()
    ∧ ∃ user, ((service.InsertUser req).1.GetUserByUsername req.Username).2 = Except.ok user
        ∧ user.Username = req.Username ∧ user.Name = req.Name ∧ user.Age = req.Age := by
  obtain ⟨hok, hrows, hfault1⟩ := UserService.InsertUser_fresh service req hfault hfresh
  refine ⟨hok, gorm.scan lookupColumns (storedRowOf service.DBConn req), ?_, ?_, ?_, ?_⟩
  · apply UserService.GetUserByUsername_found _ _ _ hfault1
    unfold gorm.DB.firstMatch
    rw [hrows, gorm.filter_append_fresh]
    · rfl
    · intro r hr
      simpa [gorm.Cond.holds] using hfresh r hr
    · simp [gorm.Cond.holds, storedRowOf]
  · simp [gorm.scan, lookupColumns, storedRowOf]
  · simp [gorm.scan, lookupColumns, storedRowOf]
  · simp [gorm.scan, lookupColumns, storedRowOf]

theorem InsertUser_then_GetUserByUsername_witness :
    (emptyService.InsertUser adaReq).2 = Except.ok ()
    ∧ ∃ user, ((emptyService.InsertUser adaReq).1.GetUserByUsername "ada").2 = Except.ok user
        ∧ user.Username = "ada" ∧ user.Name = "Ada" ∧ user.Age = 30 :=
  InsertUser_then_GetUserByUsername emptyService adaReq rfl (by decide)

/-- The scan of `GetUsers` does not look at the password column. -/
theorem gorm.scan_listColumns_withoutPassword (r : gorm.Row) :
    gorm.scan listColumns r.withoutPassword = gorm.scan listColumns r := by
  simp [gorm.scan, listColumns, gorm.Row.withoutPassword]

/-- What `GetUsers` returns on a healthy connection. -/
theorem UserService.GetUsers_healthy (service : UserService)
    (hfault : service.DBConn.fault = none) :
    (service.GetUsers).2 = Except.ok (service.DBConn.rows.map (gorm.scan listColumns)) := by
  simp [UserService.GetUsers, gorm.DB.Find, hfault, listColumns]

/-- C7: for every store state, the empty table included, when the read
succeeds (healthy connection) `GetUsers` succeeds with one record per stored
row, the password field of every record is the zero value, the result does not
depend on the stored passwords (two tables equal up to their password columns
give the same result), and the empty table gives the empty sequence. -/
theorem GetUsers_never_returns_passwords (service : UserService)
    (hfault : service.DBConn.fault = none) :
    ∃ users, (service.GetUsers).2 = Except.ok users
      ∧ users.length = service.DBConn.rows.length
      ∧ (∀ u ∈ users, u.Password = "")
      ∧ (service.DBConn.rows = [] → users = [])
      ∧ (∀ other : UserService, other.DBConn.fault = none →
          other.DBConn.rows.map gorm.Row.withoutPassword
            = service.DBConn.rows.map gorm.Row.withoutPassword →
          (other.GetUsers).2 = Except.ok users) := by
  refine ⟨service.DBConn.rows.map (gorm.scan listColumns),
    UserService.GetUsers_healthy service hfault, by simp, ?_, ?_, ?_⟩
  · intro u hu
    obtain ⟨r, _, rfl⟩ := List.mem_map.mp hu
    simp [gorm.scan, listColumns]
  · intro h
    simp [h]
  · intro other hother hrows
    rw [UserService.GetUsers_healthy other hother]
    have key : ∀ rows : List gorm.Row,
        rows.map (gorm.scan listColumns)
          = (rows.map gorm.Row.withoutPassword).map (gorm.scan listColumns) := by
      intro rows
      rw [List.map_map]
      apply List.map_congr_left
      intro r _
      exact (gorm.scan_listColumns_withoutPassword r).symm
    rw [key other.DBConn.rows, hrows, ← key service.DBConn.rows]

theorem GetUsers_never_returns_passwords_witness :
    ∃ users, (adaService.GetUsers).2 = Except.ok users
      ∧ users.length = adaService.DBConn.rows.length
      ∧ (∀ u ∈ users, u.Password = "")
      ∧ (adaService.DBConn.rows = [] → users = [])
      ∧ (∀ other : UserService, other.DBConn.fault = none →
          other.DBConn.rows.map gorm.Row.withoutPassword
            = adaService.DBConn.rows.map gorm.Row.withoutPassword →
          (other.GetUsers).2 = Except.ok users) :=
  GetUsers_never_returns_passwords adaService rfl

/-! ## Failures of the persistence call -/

/-- C8, as stated, fails: with the connection down, `InsertUser` and
`GetUserByUsername` return the very error value of the storage layer, not a
value of the service's own. -/
theorem storage_error_reaches_caller :
    downService.DBConn.fault = some connRefused
    ∧ (downService.InsertUser adaReq).2 = Except.error (GoError.storage connRefused)
    ∧ (downService.GetUserByUsername "ada").2 = Except.error (GoError.storage connRefused)
    ∧ GoError.isStorageValue (GoError.storage connRefused) = true := by
  refine ⟨rfl, rfl, rfl, rfl⟩

/-- C8, amended: for each of `InsertUser`, `GetUsers`, `GetUserByUsername`,
`GetUserByID` and `Login`, whenever the persistence call fails with a
collaborator failure the operation returns that storage error value unchanged
and has sent exactly one statement (no retry). -/
theorem storage_failure_returned_unchanged (service : UserService) (e : GormError)
    (req : api.User) (username : String) (uID : Nat) (request : api.LoginRequest)
    (hfault : service.DBConn.fault = some e) :
    ((service.InsertUser req).2 = Except.error (GoError.storage e)
      ∧ (service.InsertUser req).1.DBConn.statements
          = service.DBConn.statements ++ [insertStatementOf service.DBConn req])
    ∧ ((service.GetUsers).2 = Except.error (GoError.storage e)
      ∧ (service.GetUsers).1.DBConn.statements
          = service.DBConn.statements ++ [gorm.Statement.selectAll listColumns])
    ∧ ((service.GetUserByUsername username).2 = Except.error (GoError.storage e)
      ∧ (service.GetUserByUsername username).1.DBConn.statements
          = service.DBConn.statements ++
            [gorm.Statement.selectFirst lookupColumns (gorm.Cond.usernameEq username)])
    ∧ ((service.GetUserByID uID).2 = Except.error (GoError.storage e)
      ∧ (service.GetUserByID uID).1.DBConn.statements
          = service.DBConn.statements ++
            [gorm.Statement.selectFirst lookupColumns (gorm.Cond.idEq uID)])
    ∧ ((service.Login request).2 = Except.error (GoError.storage e)
      ∧ (service.Login request).1.DBConn.statements
          = service.DBConn.statements ++
            [gorm.Statement.selectFirst lookupColumns
              (gorm.Cond.usernameEq request.Username)]) := by
  refine ⟨⟨?_, UserService.InsertUser_statements service req⟩, ?_, ?_, ?_, ?_⟩
  · simp [UserService.InsertUser, gorm.DB.Create, hfault]
  · simp [UserService.GetUsers, gorm.DB.Find, hfault, listColumns]
  · simp [UserService.GetUserByUsername, gorm.DB.First, hfault, lookupColumns]
  · simp [UserService.GetUserByID, gorm.DB.First, hfault, lookupColumns]
  · simp [UserService.Login, UserService.GetUserByUsername, gorm.DB.First, hfault,
      lookupColumns]

theorem storage_failure_returned_unchanged_witness :
    ((downService.InsertUser adaReq).2 = Except.error (GoError.storage connRefused)
      ∧ (downService.InsertUser adaReq).1.DBConn.statements
          = downService.DBConn.statements ++ [insertStatementOf downService.DBConn adaReq])
    ∧ ((downService.GetUsers).2 = Except.error (GoError.storage connRefused)
      ∧ (downService.GetUsers).1.DBConn.statements
          = downService.DBConn.statements ++ [gorm.Statement.selectAll listColumns])
    ∧ ((downService.GetUserByUsername "ada").2 = Except.error (GoError.storage connRefused)
      ∧ (downService.GetUserByUsername "ada").1.DBConn.statements
          = downService.DBConn.statements ++
            [gorm.Statement.selectFirst lookupColumns (gorm.Cond.usernameEq "ada")])
    ∧ ((downService.GetUserByID 1).2 = Except.error (GoError.storage connRefused)
      ∧ (downService.GetUserByID 1).1.DBConn.statements
          = downService.DBConn.statements ++
            [gorm.Statement.selectFirst lookupColumns (gorm.Cond.idEq 1)])
    ∧ ((downService.Login { Username := "ada", Password := "secret" }).2
          = Except.error (GoError.storage connRefused)
      ∧ (downService.Login { Username := "ada", Password := "secret" }).1.DBConn.statements
          = downService.DBConn.statements ++
            [gorm.Statement.selectFirst lookupColumns (gorm.Cond.usernameEq "ada")]) :=
  storage_failure_returned_unchanged downService connRefused adaReq "ada" 1
    { Username := "ada", Password := "secret" } rfl

/-! ## Logging of failures -/

/-- Every error the four store operations return was logged: the last entry
of the logger is then an entry of error severity. -/
theorem storage_failures_are_logged (service : UserService) (req : api.User)
    (username : String) (uID : Nat) :
    (∀ err, (service.InsertUser req).2 = Except.error err →
      ∃ fields, (service.InsertUser req).1.logger.entries = service.logger.entries ++
        [{ Level := zap.Level.ErrorLevel, Message := "something went wrong inserting user",
           Fields := fields }])
    ∧ (∀ err, (service.GetUsers).2 = Except.error err →
      ∃ fields, (service.GetUsers).1.logger.entries = service.logger.entries ++
        [{ Level := zap.Level.ErrorLevel, Message := "something went wrong getting all players",
           Fields := fields }])
    ∧ (∀ err, (service.GetUserByUsername username).2 = Except.error err →
      ∃ fields, (service.GetUserByUsername username).1.logger.entries
        = service.logger.entries ++
        [{ Level := zap.Level.ErrorLevel,
           Message := "something went wrong getting player by username", Fields := fields }])
    ∧ (∀ err, (service.GetUserByID uID).2 = Except.error err →
      ∃ fields, (service.GetUserByID uID).1.logger.entries = service.logger.entries ++
        [{ Level := zap.Level.ErrorLevel, Message := "something went wrong getting player by ID",
           Fields := fields }]) := by
  refine ⟨?_, ?_, ?_, ?_⟩
  · intro err
    unfold UserService.InsertUser
    simp only
    split
    · intro _
      exact ⟨_, rfl⟩
    · intro h
      cases h
  · intro err
    unfold UserService.GetUsers
    simp only
    split
    · intro _
      exact ⟨_, rfl⟩
    · intro h
      cases h
  · intro err
    unfold UserService.GetUserByUsername
    simp only
    split
    · intro _
      exact ⟨_, rfl⟩
    · intro h
      cases h
  · intro err
    unfold UserService.GetUserByID
    simp only
    split
    · intro _
      exact ⟨_, rfl⟩
    · intro h
      cases h

/-- C10 fails on the code at a password mismatch: for Ada stored with password
"secret", `Login("ada", "wrong")` returns an error while the logger holds no
entry of error severity, only the debug entry of the lookup that succeeded. -/
theorem Login_mismatch_not_logged :
    (adaService.Login { Username := "ada", Password := "wrong" }).2
        = Except.error (GoError.errorf "invalid passord for user")
    ∧ (adaService.Login { Username := "ada", Password := "wrong" }).1.logger.errorEntries = []
    ∧ (adaService.Login { Username := "ada", Password := "wrong" }).1.logger.entries
        = [{ Level := zap.Level.DebugLevel, Message := "user grabbed",
             Fields := [zap.Field.AnyUser "user"
               { Name := "Ada", Username := "ada", Age := 30, Password := "secret" }] }] := by
  refine ⟨rfl, rfl, rfl⟩
